import Mathlib

/-!
Verification of the nodeswarm thread-pool scheduler.

The definitions below are a shallow embedding of the TypeScript source:
`src/priorityQueue.ts`, `src/validation.ts`, `src/worker.ts`, the
`ThreadPool` class, and the `MetricsTracker` class.  JavaScript
`undefined` is modelled by `Option.none`, mutable object state by
explicit state passing, `Date.now()` by an explicit `now : Nat`
parameter, and the side effects visible outside the scheduler state
(promise settlement, `postMessage`, `terminate`, timer arm/clear) by an
event list returned alongside the new state.
-/

namespace NodeSwarm

/-- Priority levels for job execution (types.ts, `enum Priority`). -/
inductive Priority where
  | high
  | normal
  | low
deriving DecidableEq, Repr

/-! ## JavaScript value model (for `isSerializable` in validation.ts) -/

/-- A JavaScript runtime value, as far as `isSerializable` can
distinguish them: primitives, functions/symbols, arrays, plain objects
(represented by the list of their own enumerable values, which is all
`Object.values` exposes), and the special reference types the validator
rejects explicitly. -/
inductive JSValue where
  | undef
  | nullV
  | str (s : String)
  | num (q : Rat)
  | boolV (b : Bool)
  | bigintV (n : Int)
  | funcV
  | symbolV
  | arr (elems : List JSValue)
  | obj (values : List JSValue)
  | regexpV
  | errorV
  | dateV
  | mapV
  | setV
  | weakMapV
  | weakSetV

/-- validation.ts `isSerializable`: primitives (and null/undefined) are
serialisable, functions and symbols are not, arrays and plain objects
are serialisable iff all their element/property values are, and the
special reference objects (RegExp, Error, Date, Map, Set, WeakMap,
WeakSet) are not. -/
def isSerializable : JSValue → Bool
  | .undef => true
  | .nullV => true
  | .str _ => true
  | .num _ => true
  | .boolV _ => true
  | .bigintV _ => true
  | .funcV => false
  | .symbolV => false
  | .arr elems => goList elems
  | .obj values => goList values
  | .regexpV => false
  | .errorV => false
  | .dateV => false
  | .mapV => false
  | .setV => false
  | .weakMapV => false
  | .weakSetV => false
where
  /-- `Array.prototype.every` / `Object.values(...).every` over `isSerializable`. -/
  goList : List JSValue → Bool
  | [] => true
  | v :: t => isSerializable v && goList t

/-! ## Input validator (validation.ts) -/

/-- JavaScript regex `\s` character class (whitespace), by code point. -/
def isJsSpace (c : Char) : Bool :=
  let n := c.toNat
  n == 32 || n == 9 || n == 10 || n == 11 || n == 12 || n == 13 ||
  n == 160 || n == 5760 || (8192 ≤ n && n ≤ 8202) || n == 8232 ||
  n == 8233 || n == 8239 || n == 8287 || n == 12288 || n == 65279

/-- Match a literal character sequence at the head of `s`, returning the
rest of `s` on success. -/
def dropLit : List Char → List Char → Option (List Char)
  | [], s => some s
  | _ :: _, [] => none
  | c :: p, d :: s => if d = c then dropLit p s else none

/-- Does `lit` followed by `\s*` followed by `(` match at the head of `s`?
This is the shape of the patterns `require\s*\(`, `eval\s*\(`,
`Function\s*\(`. -/
def litWsParenAt (lit : List Char) (s : List Char) : Bool :=
  match dropLit lit s with
  | none => false
  | some rest =>
    match rest.dropWhile (fun c => isJsSpace c) with
    | c :: _ => c == '('
    | [] => false

/-- Does `lit` followed by `\s+` (the pattern `import\s+`) match at the
head of `s`? -/
def litWsOneAt (lit : List Char) (s : List Char) : Bool :=
  match dropLit lit s with
  | none => false
  | some (c :: _) => isJsSpace c
  | some [] => false

/-- Does the literal `lit` match at the head of `s`? -/
def litAt (lit : List Char) (s : List Char) : Bool :=
  (dropLit lit s).isSome

/-- Does `f` hold at some suffix position of `s` (regex search over all
starting positions)? -/
def anyPos (f : List Char → Bool) : List Char → Bool
  | [] => f []
  | c :: rest => f (c :: rest) || anyPos f rest

/-- validation.ts `DANGEROUS_PATTERNS`: the ten case-insensitive
regexes, tested against the function text (lowercased once, since every
pattern is a case-insensitive literal shape). -/
def dangerousMatch (text : String) : Bool :=
  let s := text.data.map Char.toLower
  anyPos (litWsParenAt "require".data) s ||
  anyPos (litWsOneAt "import".data) s ||
  anyPos (litWsParenAt "eval".data) s ||
  anyPos (litWsParenAt "function".data) s ||
  anyPos (litAt "process.".data) s ||
  anyPos (litAt "global.".data) s ||
  anyPos (litAt "__dirname".data) s ||
  anyPos (litAt "__filename".data) s ||
  anyPos (litAt "child_process".data) s ||
  anyPos (litAt "fs.".data) s

/-- A submitted function value: whether it is actually a function
(`typeof fn === "function"`) and its `toString()` text. -/
structure JsFn where
  isFunction : Bool
  text : String
deriving DecidableEq, Repr

/-- The validation failures `validateFunction` / `validateArguments`
throw (as distinguishable kinds). -/
inductive ValError where
  | notAFunction
  | dangerousPattern
  | invalidFormat
  | badArgument (i : Nat)
deriving DecidableEq, Repr

/-- validation.ts `validateFunction`: reject non-functions, then any
dangerous-pattern match, then any text that neither contains an arrow
`=>` nor starts with `function` / `async function`.  `none` means the
function passed validation; `some e` models the thrown error. -/
def validateFunctionE (fn : JsFn) : Option ValError :=
  if fn.isFunction = false then some .notAFunction
  else if dangerousMatch fn.text then some .dangerousPattern
  else
    let d := fn.text.data
    let isArrow := anyPos (litAt "=>".data) d
    let isKeyword := (dropLit "function".data d).isSome ||
      (dropLit "async function".data d).isSome
    if !isArrow && !isKeyword then some .invalidFormat else none

/-- validation.ts `validateArguments`: the index of the first
non-serialisable argument, if any. -/
def validateArgsIdx : List JSValue → Nat → Option Nat
  | [], _ => none
  | v :: t, i => if isSerializable v then validateArgsIdx t (i + 1) else some i

/-- `validateArguments` as a validation-error producer. -/
def validateArgumentsE (args : List JSValue) : Option ValError :=
  (validateArgsIdx args 0).map ValError.badArgument

/-! ## Jobs and the priority queue (priorityQueue.ts) -/

/-- A scheduled unit (types.ts `Job`): the serialised function text and
arguments, the priority band, the optional timeout and cancellation
handle, and the runtime attributes the scheduler attaches on dispatch
(`startTime`, `timeoutId`).  The completion sink is identified by `jid`;
settlement of the sink is an emitted event, not a state field. -/
structure Job where
  jid : Nat
  fnText : String
  args : List JSValue
  priority : Priority
  timeout : Option Nat
  hasSignal : Bool
  startTime : Option Nat
  timeoutId : Option Nat

/-- priorityQueue.ts `PriorityQueue`: three FIFO bands. -/
structure PriorityQueue where
  high : List Job
  normal : List Job
  low : List Job

namespace PriorityQueue

/-- The freshly constructed queue. -/
def empty : PriorityQueue := ⟨[], [], []⟩

/-- The band of a given priority. -/
def band (q : PriorityQueue) : Priority → List Job
  | .high => q.high
  | .normal => q.normal
  | .low => q.low

/-- `enqueue(job)`: push at the tail of the job's priority band. -/
def enqueue (q : PriorityQueue) (j : Job) : PriorityQueue :=
  match j.priority with
  | .high => { q with high := q.high ++ [j] }
  | .normal => { q with normal := q.normal ++ [j] }
  | .low => { q with low := q.low ++ [j] }

/-- `dequeue()`: shift the front of the highest non-empty band, HIGH
first, then NORMAL, then LOW; `none` (undefined) when all are empty. -/
def dequeue (q : PriorityQueue) : Option (Job × PriorityQueue) :=
  match q.high with
  | j :: rest => some (j, { q with high := rest })
  | [] =>
    match q.normal with
    | j :: rest => some (j, { q with normal := rest })
    | [] =>
      match q.low with
      | j :: rest => some (j, { q with low := rest })
      | [] => none

/-- `length`: total number of queued jobs across the bands. -/
def qlength (q : PriorityQueue) : Nat :=
  q.high.length + q.normal.length + q.low.length

/-- `isEmpty`: `length === 0`. -/
def isEmpty (q : PriorityQueue) : Bool :=
  q.qlength == 0

/-- All queued jobs, highest band first, each band in FIFO order. -/
def allJobs (q : PriorityQueue) : List Job :=
  q.high ++ q.normal ++ q.low

end PriorityQueue

/-! ## Metrics (metrics.ts, `MetricsTracker`) -/

/-- The tracker's mutable counters.  Execution times are JS numbers;
they are modelled as exact rationals. -/
structure MetricsTracker where
  completedJobs : Nat
  failedJobs : Nat
  totalExecutionTime : Rat
  workerRestarts : Nat
  startTime : Nat
deriving DecidableEq, Repr

namespace MetricsTracker

/-- The tracker at construction time. -/
def init (now : Nat) : MetricsTracker := ⟨0, 0, 0, 0, now⟩

/-- `recordJobComplete(executionTime)`. -/
def recordJobComplete (m : MetricsTracker) (t : Rat) : MetricsTracker :=
  { m with completedJobs := m.completedJobs + 1,
           totalExecutionTime := m.totalExecutionTime + t }

/-- `recordJobFailure()`. -/
def recordJobFailure (m : MetricsTracker) : MetricsTracker :=
  { m with failedJobs := m.failedJobs + 1 }

/-- `recordWorkerRestart()`. -/
def recordWorkerRestart (m : MetricsTracker) : MetricsTracker :=
  { m with workerRestarts := m.workerRestarts + 1 }

end MetricsTracker

/-- The snapshot returned by `getMetrics` (types.ts
`ThreadPoolMetrics`). -/
structure ThreadPoolMetrics where
  completedJobs : Nat
  failedJobs : Nat
  activeJobs : Nat
  queueDepth : Nat
  workerCount : Nat
  avgExecutionTime : Rat
  totalExecutionTime : Rat
  workerRestarts : Nat
  uptime : Nat
deriving DecidableEq, Repr

/-- metrics.ts `getMetrics(activeJobs, queueDepth, workerCount)`:
counters plus the derived average and the live gauges. -/
def MetricsTracker.getMetrics (m : MetricsTracker)
    (activeJobs queueDepth workerCount now : Nat) : ThreadPoolMetrics :=
  { completedJobs := m.completedJobs
    failedJobs := m.failedJobs
    activeJobs := activeJobs
    queueDepth := queueDepth
    workerCount := workerCount
    avgExecutionTime :=
      if 0 < m.completedJobs then
        m.totalExecutionTime / (m.completedJobs : Rat)
      else 0
    totalExecutionTime := m.totalExecutionTime
    workerRestarts := m.workerRestarts
    uptime := now - m.startTime }

/-! ## Pool scheduler state (ThreadPool class) -/

/-- types.ts `WorkerState`: a worker handle plus liveness metadata.  The
worker_threads `Worker` object is identified by a scheduler-unique id
`wid` (never reused). -/
structure WorkerState where
  wid : Nat
  failureCount : Nat
  lastHeartbeat : Nat
  isHealthy : Bool
deriving DecidableEq, Repr

/-- The resolved `Required<ThreadPoolConfig>`. -/
structure Config where
  poolSize : Nat
  minPoolSize : Nat
  maxPoolSize : Nat
  autoScale : Bool
  scaleUpThreshold : Nat
  scaleDownDelay : Nat
  strictMode : Bool
deriving DecidableEq, Repr

/-- The caller-supplied `ThreadPoolConfig` (every field optional). -/
structure PartialConfig where
  poolSize : Option Nat
  minPoolSize : Option Nat
  maxPoolSize : Option Nat
  autoScale : Option Bool
  scaleUpThreshold : Option Nat
  scaleDownDelay : Option Nat
  strictMode : Option Bool
deriving DecidableEq, Repr

/-- The constructor's default resolution (`?? cpuCount`, `?? cpuCount*2`,
`?? false`, `?? 10`, `?? 30000`, `?? true`). -/
def resolveConfig (c : PartialConfig) (cpuCount : Nat) : Config :=
  { poolSize := c.poolSize.getD cpuCount
    minPoolSize := c.minPoolSize.getD cpuCount
    maxPoolSize := c.maxPoolSize.getD (cpuCount * 2)
    autoScale := c.autoScale.getD false
    scaleUpThreshold := c.scaleUpThreshold.getD 10
    scaleDownDelay := c.scaleDownDelay.getD 30000
    strictMode := c.strictMode.getD true }

/-- The error kinds with which the scheduler rejects a job's future:
the abort error of the cancellation paths, the timeout error, the
reconstructed user error of an error-carrying worker response, and the
crash cause passed by a worker error event. -/
inductive ErrKind where
  | abortErr
  | timeoutErr
  | userErr
  | crashErr
deriving DecidableEq, Repr

/-- Settlement of a job's completion sink: resolution with the worker's
result, or rejection with one of the error kinds of the source. -/
inductive Sig where
  | resolvedSig
  | rejectedSig (k : ErrKind)
deriving DecidableEq, Repr

/-- Externally visible effects of a scheduler transition: a settlement
call on a job's promise sink, `worker.postMessage`, `worker.terminate`,
and timer arming/clearing. -/
inductive Ev where
  | signal (jid : Nat) (s : Sig)
  | post (wid : Nat)
  | terminateW (wid : Nat)
  | armTimer (tid : Nat)
  | clearTimer (tid : Nat)
deriving DecidableEq, Repr

/-- The sink settlements among a list of events, in order. -/
def sigsOf (evs : List Ev) : List (Nat × Sig) :=
  evs.filterMap (fun e =>
    match e with
    | .signal j s => some (j, s)
    | _ => none)

/-- The error object of a worker response message. -/
structure WireError where
  message : Option String
  stack : Option String
  name : Option String
deriving DecidableEq, Repr

/-- The response half of `WorkerMessage`: `result` and `error`, each
possibly `undefined`. -/
structure WorkerResponse where
  result : Option JSValue
  error : Option WireError

/-- The scheduler's shared state (the private fields of `ThreadPool`).
`workerJobMap` is the `Map<Worker, Job>` keyed by worker id;
`closeResolvers` counts parked `close()` waiters; `nextWid`, `nextTid`,
`nextJid` allocate fresh worker ids, timer tokens and job (sink) ids. -/
structure PoolState where
  workers : List WorkerState
  queue : PriorityQueue
  workerJobMap : List (Nat × Job)
  closing : Bool
  closeResolvers : Nat
  metrics : MetricsTracker
  config : Config
  healthCheckActive : Bool
  nextWid : Nat
  nextTid : Nat
  nextJid : Nat

/-- `Map.get` on the worker-to-job map. -/
def mapGet (m : List (Nat × Job)) (w : Nat) : Option Job :=
  (m.find? (fun e => e.1 == w)).map (fun e => e.2)

/-- `Map.set` on the worker-to-job map (replace in place if the key is
present, append otherwise — JS `Map` insertion-order semantics). -/
def mapSet (m : List (Nat × Job)) (w : Nat) (j : Job) : List (Nat × Job) :=
  if (m.find? (fun e => e.1 == w)).isSome then
    m.map (fun e => if e.1 == w then (w, j) else e)
  else m ++ [(w, j)]

/-- `Map.delete` on the worker-to-job map. -/
def mapDelete (m : List (Nat × Job)) (w : Nat) : List (Nat × Job) :=
  m.filter (fun e => !(e.1 == w))

namespace PoolState

/-- `createWorker()`: spawn a worker, register its handlers, push its
state onto the workers vector, and return it. -/
def createWorker (s : PoolState) (now : Nat) : PoolState × WorkerState :=
  let ws : WorkerState := ⟨s.nextWid, 0, now, true⟩
  ({ s with workers := s.workers ++ [ws], nextWid := s.nextWid + 1 }, ws)

/-- `initializeWorkers(count)`. -/
def initializeWorkers : PoolState → Nat → Nat → PoolState
  | s, 0, _ => s
  | s, Nat.succ n, now => initializeWorkers (s.createWorker now).1 n now

/-- The `ThreadPool` constructor: resolve the configuration, create the
queue and metrics tracker, spawn `poolSize` workers, start the health
check. -/
def mkPool (pc : PartialConfig) (cpuCount now : Nat) : PoolState :=
  let cfg := resolveConfig pc cpuCount
  let s0 : PoolState :=
    { workers := []
      queue := PriorityQueue.empty
      workerJobMap := []
      closing := false
      closeResolvers := 0
      metrics := MetricsTracker.init now
      config := cfg
      healthCheckActive := true
      nextWid := 0
      nextTid := 0
      nextJid := 0 }
  initializeWorkers s0 cfg.poolSize now

/-- `findAvailableWorker()`: the first healthy worker with no bound
job. -/
def findAvailableWorker (s : PoolState) : Option WorkerState :=
  s.workers.find? (fun ws => ws.isHealthy && (mapGet s.workerJobMap ws.wid).isNone)

/-- Update the `lastHeartbeat` of the worker state with the given id
(the source mutates the shared `WorkerState` object found by
identity; ids are unique per object, so updating every list entry with
that id models the aliasing). -/
def touchHeartbeat (s : PoolState) (wid now : Nat) : PoolState :=
  { s with workers := s.workers.map (fun ws =>
      if ws.wid == wid then { ws with lastHeartbeat := now } else ws) }

/-- `runJob(worker, job)`: stamp `startTime`, bind the job in the map,
arm the one-shot timeout timer if `job.timeout` is truthy, post the
request envelope, update the worker's heartbeat. -/
def runJob (s : PoolState) (wid : Nat) (job : Job) (now : Nat) :
    PoolState × List Ev :=
  let job1 := { job with startTime := some now }
  let armed : Job × PoolState × List Ev :=
    match job.timeout with
    | some t =>
      if t ≠ 0 then
        ({ job1 with timeoutId := some s.nextTid },
         { s with nextTid := s.nextTid + 1 }, [Ev.armTimer s.nextTid])
      else (job1, s, [])
    | none => (job1, s, [])
  let s2 := { armed.2.1 with
    workerJobMap := mapSet armed.2.1.workerJobMap wid armed.1 }
  (s2.touchHeartbeat wid now, armed.2.2 ++ [Ev.post wid])

/-- `processNextJob()`: if the queue is non-empty and a worker is
available, dequeue and run the next job. -/
def processNextJob (s : PoolState) (now : Nat) : PoolState × List Ev :=
  if s.queue.isEmpty then (s, [])
  else
    match s.findAvailableWorker with
    | none => (s, [])
    | some ws =>
      match s.queue.dequeue with
      | none => (s, [])
      | some (j, q2) => runJob { s with queue := q2 } ws.wid j now

/-- `restartWorker(index)`: terminate the worker at `index`, drop its
binding, re-enqueue its bound job (clearing the armed timer) if any,
create a replacement worker (note: `createWorker` pushes it onto the
vector) and also assign it at `index`, record the restart, then pump the
queue. -/
def restartWorker (s : PoolState) (index now : Nat) : PoolState × List Ev :=
  match s.workers[index]? with
  | none => (s, [])
  | some ws =>
    let jobOpt := mapGet s.workerJobMap ws.wid
    let s1 := { s with workerJobMap := mapDelete s.workerJobMap ws.wid }
    let requeued : PoolState × List Ev :=
      match jobOpt with
      | some job =>
        let evsT := match job.timeoutId with
          | some tid => [Ev.clearTimer tid]
          | none => []
        ({ s1 with queue := s1.queue.enqueue job }, evsT)
      | none => (s1, [])
    let created := requeued.1.createWorker now
    let s4 := { created.1 with workers := created.1.workers.set index created.2 }
    let s5 := { s4 with metrics := s4.metrics.recordWorkerRestart }
    let pumped := s5.processNextJob now
    (pumped.1, Ev.terminateW ws.wid :: requeued.2 ++ pumped.2)

/-- `handleJobTimeout(worker, job)`: unbind the worker, reject the job's
future with `TimeoutError`, record the failure, then terminate and
replace the (stuck) worker. -/
def handleJobTimeout (s : PoolState) (wid : Nat) (job : Job) (now : Nat) :
    PoolState × List Ev :=
  let s1 := { s with workerJobMap := mapDelete s.workerJobMap wid }
  let s2 := { s1 with metrics := s1.metrics.recordJobFailure }
  let ev := Ev.signal job.jid (Sig.rejectedSig ErrKind.timeoutErr)
  match s2.workers.findIdx? (fun ws => ws.wid == wid) with
  | some i =>
    let r := s2.restartWorker i now
    (r.1, ev :: r.2)
  | none => (s2, [ev])

/-- `cancelJob(job)` (the abort-signal listener): clear the armed timer
if any, reject the job's future with the abort error, record a
failure.  Nothing else: the worker-to-job binding, the workers vector
and the queue are untouched. -/
def cancelJob (s : PoolState) (job : Job) : PoolState × List Ev :=
  let evsT := match job.timeoutId with
    | some tid => [Ev.clearTimer tid]
    | none => []
  ({ s with metrics := s.metrics.recordJobFailure },
   evsT ++ [Ev.signal job.jid (Sig.rejectedSig ErrKind.abortErr)])

/-- `onMessage(worker, message)`: ignore when no job is bound; otherwise
clear the timer, compute the execution time, refresh the worker's
heartbeat and zero its failure count, settle the sink (reject on an
error payload, resolve otherwise) with the matching metric, unbind,
signal the shutdown waiters when closing and drained, and pump. -/
def onMessage (s : PoolState) (wid : Nat) (msg : WorkerResponse) (now : Nat) :
    PoolState × List Ev :=
  match mapGet s.workerJobMap wid with
  | none => (s, [])
  | some job =>
    let evsT := match job.timeoutId with
      | some tid => [Ev.clearTimer tid]
      | none => []
    let executionTime : Nat := match job.startTime with
      | some t0 => now - t0
      | none => 0
    let s1 := { s with workers := s.workers.map (fun (ws : WorkerState) =>
      if ws.wid == wid then { ws with lastHeartbeat := now, failureCount := 0 }
      else ws) }
    let settled : PoolState × Ev :=
      match msg.error with
      | some _ =>
        ({ s1 with metrics := s1.metrics.recordJobFailure },
         Ev.signal job.jid (Sig.rejectedSig ErrKind.userErr))
      | none =>
        ({ s1 with metrics := s1.metrics.recordJobComplete (executionTime : Rat) },
         Ev.signal job.jid Sig.resolvedSig)
    let s3 := { settled.1 with
      workerJobMap := mapDelete settled.1.workerJobMap wid }
    let s4 :=
      if s3.closing && s3.queue.isEmpty && s3.workerJobMap.length == 0 then
        { s3 with closeResolvers := 0 }
      else s3
    let pumped := s4.processNextJob now
    (pumped.1, evsT ++ settled.2 :: pumped.2)

/-- `onError(worker, error)`: bump the failure count and mark unhealthy,
reject the bound job's future (clearing its timer) if any, unbind, and
restart the worker in place. -/
def onError (s : PoolState) (wid now : Nat) : PoolState × List Ev :=
  let s1 := { s with workers := s.workers.map (fun ws =>
    if ws.wid == wid then
      { ws with failureCount := ws.failureCount + 1, isHealthy := false }
    else ws) }
  let settled : PoolState × List Ev :=
    match mapGet s1.workerJobMap wid with
    | some job =>
      let evsT := match job.timeoutId with
        | some tid => [Ev.clearTimer tid]
        | none => []
      ({ s1 with metrics := s1.metrics.recordJobFailure },
       evsT ++ [Ev.signal job.jid (Sig.rejectedSig ErrKind.crashErr)])
    | none => (s1, [])
  let s3 := { settled.1 with
    workerJobMap := mapDelete settled.1.workerJobMap wid }
  match s3.workers.findIdx? (fun ws => ws.wid == wid) with
  | some i =>
    let r := s3.restartWorker i now
    (r.1, settled.2 ++ r.2)
  | none => (s3, settled.2)

/-- `onExit(worker, code)`: a non-zero exit while not closing restarts
the worker in place; anything else is ignored. -/
def onExit (s : PoolState) (wid : Nat) (code : Int) (now : Nat) :
    PoolState × List Ev :=
  if code ≠ 0 && !s.closing then
    match s.workers.findIdx? (fun ws => ws.wid == wid) with
    | some i => s.restartWorker i now
    | none => (s, [])
  else (s, [])

/-- The loop body of `scaleUp`: create a worker then pump, `n` times. -/
def scaleLoop : PoolState → Nat → Nat → PoolState × List Ev
  | s, 0, _ => (s, [])
  | s, Nat.succ n, now =>
    let created := s.createWorker now
    let pumped := created.1.processNextJob now
    let rest := scaleLoop pumped.1 n now
    (rest.1, pumped.2 ++ rest.2)

/-- `scaleUp()`: grow to `min(|workers| + 1, maxPoolSize)`. -/
def scaleUp (s : PoolState) (now : Nat) : PoolState × List Ev :=
  let newWorkerCount := min (s.workers.length + 1) s.config.maxPoolSize
  scaleLoop s (newWorkerCount - s.workers.length) now

/-- The private `ThreadPool.enqueue(job)`: run on an available worker or
queue the job, and evaluate the autoscale scale-up condition. -/
def enqueueJob (s : PoolState) (job : Job) (now : Nat) : PoolState × List Ev :=
  match s.findAvailableWorker with
  | some ws => s.runJob ws.wid job now
  | none =>
    let s1 := { s with queue := s.queue.enqueue job }
    if s1.config.autoScale && s1.config.scaleUpThreshold ≤ s1.queue.qlength &&
        s1.workers.length < s1.config.maxPoolSize then
      s1.scaleUp now
    else (s1, [])

/-- One iteration step of `checkWorkerHealth`'s `for` loop, with an
explicit fuel bound (the JS loop re-reads `this.workers.length`, which
`restartWorker` grows; freshly created workers have a current heartbeat
and no bound job, so the loop always terminates, and any fuel at least
`2 * |workers| + 1` is enough). -/
def healthLoop : PoolState → Nat → Nat → Nat → PoolState × List Ev
  | s, _, 0, _ => (s, [])
  | s, i, Nat.succ fuel, now =>
    match s.workers[i]? with
    | none => (s, [])
    | some ws =>
      if (mapGet s.workerJobMap ws.wid).isSome &&
          60000 < now - ws.lastHeartbeat then
        let s1 := { s with workers := s.workers.map (fun (w : WorkerState) =>
          if w.wid == ws.wid then { w with isHealthy := false } else w) }
        let r := s1.restartWorker i now
        let rest := healthLoop r.1 (i + 1) fuel now
        (rest.1, r.2 ++ rest.2)
      else healthLoop s (i + 1) fuel now

/-- `checkWorkerHealth()`: evict every worker that holds a job but has
been silent for more than `maxInactivity = 60000` ms. -/
def checkWorkerHealth (s : PoolState) (now : Nat) : PoolState × List Ev :=
  healthLoop s 0 (2 * s.workers.length + 1) now

end PoolState

/-! ## Submission (`ThreadPool.thread`) -/

/-- The state of an `AbortSignal` as the submission path reads it. -/
structure SignalState where
  aborted : Bool
deriving DecidableEq, Repr

/-- types.ts `ThreadOptions`. -/
structure ThreadOptions where
  timeout : Option Nat
  signal : Option SignalState
  priority : Option Priority
deriving DecidableEq, Repr

/-- How the promise returned by `thread` leaves the submission path:
rejected immediately (closing, validation failure, already-aborted
signal) or accepted as a pending job with sink id `jid`. -/
inductive ThreadOutcome where
  | rejectedClosing
  | rejectedValidation (e : ValError)
  | rejectedAborted
  | accepted (jid : Nat)
deriving DecidableEq, Repr

/-- The guarded validation block of `thread`: in strict mode run
`validateFunction` then `validateArguments`, either of which may throw
(`Except.error`); with strict mode off neither check runs. -/
def tryValidate (strict : Bool) (fn : JsFn) (args : List JSValue) :
    Except ValError Unit :=
  if strict then
    match validateFunctionE fn with
    | some e => Except.error e
    | none =>
      match validateArgumentsE args with
      | some e => Except.error e
      | none => Except.ok ()
  else Except.ok ()

/-- The promise-executor body of `thread` (after overload parsing).  The
outer `Except` models an exception escaping the executor synchronously:
the validator's throws happen inside the executor's `try`, whose `catch`
turns them into a rejection of the returned promise, so the `error` case
is never reached. -/
def threadStepE (s : PoolState) (opts : ThreadOptions) (fn : JsFn)
    (args : List JSValue) (now : Nat) :
    Except ValError (PoolState × ThreadOutcome × List Ev) :=
  if s.closing then Except.ok (s, ThreadOutcome.rejectedClosing, [])
  else
    match tryValidate s.config.strictMode fn args with
    | Except.error e => Except.ok (s, ThreadOutcome.rejectedValidation e, [])
    | Except.ok () =>
      let job : Job :=
        { jid := s.nextJid
          fnText := fn.text
          args := args
          priority := opts.priority.getD Priority.normal
          timeout := opts.timeout
          hasSignal := opts.signal.isSome
          startTime := none
          timeoutId := none }
      let s1 := { s with nextJid := s.nextJid + 1 }
      match opts.signal with
      | some sg =>
        if sg.aborted then Except.ok (s1, ThreadOutcome.rejectedAborted, [])
        else
          let r := s1.enqueueJob job now
          Except.ok (r.1, ThreadOutcome.accepted job.jid, r.2)
      | none =>
        let r := s1.enqueueJob job now
        Except.ok (r.1, ThreadOutcome.accepted job.jid, r.2)

/-- `thread` as a total transition (it never throws; see
`threadStepE`). -/
def threadStep (s : PoolState) (opts : ThreadOptions) (fn : JsFn)
    (args : List JSValue) (now : Nat) : PoolState × ThreadOutcome × List Ev :=
  match threadStepE s opts fn args now with
  | Except.ok r => r
  | Except.error _ => (s, ThreadOutcome.rejectedClosing, [])

/-! ## Worker runtime (worker.ts) -/

/-- The outcome of the worker runtime rehydrating and invoking the
submitted function: a result value (possibly `undefined`, i.e. `none`)
or a caught error `{ message, stack, name }`. -/
abbrev WorkerExec := Except WireError (Option JSValue)

/-- worker.ts message handler: `let result, error; try ... catch ...;
parentPort.postMessage(\x7b result, error \x7d)`.  On success `error`
stays undefined; on a caught error `result` stays undefined. -/
def workerRespond : WorkerExec → WorkerResponse
  | Except.ok v => ⟨v, none⟩
  | Except.error e => ⟨none, some e⟩

/-- Both response fields can be absent at once (the spec demands exactly
one); this holds exactly when one of `result`/`error` is non-undefined
and the other is undefined. -/
def exactlyOnePresent (r : WorkerResponse) : Bool :=
  (r.result.isSome && !r.error.isSome) || (!r.result.isSome && r.error.isSome)

/-! ## Priority-queue lemmas -/

namespace PriorityQueue

lemma allJobs_length (q : PriorityQueue) : q.allJobs.length = q.qlength := by
  simp [allJobs, qlength]
  omega

lemma dequeue_none_iff (q : PriorityQueue) :
    q.dequeue = none ↔ q.allJobs = [] := by
  obtain ⟨h, n, l⟩ := q
  cases h <;> cases n <;> cases l <;> simp [dequeue, allJobs]

lemma dequeue_cons {q : PriorityQueue} {j : Job} {q2 : PriorityQueue}
    (hd : q.dequeue = some (j, q2)) : q.allJobs = j :: q2.allJobs := by
  obtain ⟨h, n, l⟩ := q
  cases h <;> cases n <;> cases l <;>
    simp_all [dequeue, allJobs] <;>
    obtain ⟨rfl, rfl⟩ := hd <;> simp [allJobs]

lemma enqueue_band_eq (q : PriorityQueue) (j : Job) :
    (q.enqueue j).band j.priority = q.band j.priority ++ [j] := by
  cases hp : j.priority <;> simp [enqueue, band, hp]

lemma enqueue_band_ne (q : PriorityQueue) (j : Job) (p : Priority)
    (hne : p ≠ j.priority) : (q.enqueue j).band p = q.band p := by
  cases hp : j.priority <;> cases p <;> simp_all [enqueue, band]

lemma enqueue_qlength (q : PriorityQueue) (j : Job) :
    (q.enqueue j).qlength = q.qlength + 1 := by
  cases hp : j.priority <;> simp [enqueue, qlength, hp] <;> omega

end PriorityQueue

/-! ## C4: dequeue order and FIFO stability -/

/-- C4: `PriorityQueue.dequeue` returns `none` exactly when all three
bands are empty; otherwise it returns and removes the front of the
highest non-empty band, in the sense that the flattened
priority-then-FIFO view `allJobs` (HIGH band, then NORMAL, then LOW,
each in insertion order) of the queue is exactly the dequeued job
consed onto the flattened view of the remaining queue; and `enqueue`
appends at the tail of the job's own band, leaving the other bands
unchanged — so within a band jobs come out in exactly their insertion
order (stable FIFO). -/
theorem c4_dequeue_priority_fifo (q : PriorityQueue) :
    (q.dequeue = none ↔ (q.high = [] ∧ q.normal = [] ∧ q.low = [])) ∧
    (∀ (j : Job) (q2 : PriorityQueue), q.dequeue = some (j, q2) →
      q.allJobs = j :: q2.allJobs) ∧
    (∀ j : Job, (q.enqueue j).band j.priority = q.band j.priority ++ [j] ∧
      ∀ p : Priority, p ≠ j.priority → (q.enqueue j).band p = q.band p) := by
  refine ⟨?_, ?_, ?_⟩
  · rw [PriorityQueue.dequeue_none_iff]
    simp [PriorityQueue.allJobs]
  · intro j q2 hd
    exact PriorityQueue.dequeue_cons hd
  · intro j
    exact ⟨PriorityQueue.enqueue_band_eq q j,
      fun p hp => PriorityQueue.enqueue_band_ne q j p hp⟩

/-- A concrete job for the C4 witness. -/
def c4WJob : Job := ⟨7, "(x)=>x", [], Priority.normal, none, false, none, none⟩

/-- C4 witness: on the concrete queue holding only `c4WJob` in the
NORMAL band, `dequeue` returns it and leaves the empty queue. -/
theorem c4_witness :
    PriorityQueue.allJobs ⟨[], [c4WJob], []⟩ =
      c4WJob :: PriorityQueue.allJobs ⟨[], [], []⟩ :=
  (c4_dequeue_priority_fifo ⟨[], [c4WJob], []⟩).2.1 c4WJob ⟨[], [], []⟩ rfl

/-! ## C7: worker response shape -/

/-- C7 counterexample: when the submitted function returns `undefined`
(the worker execution succeeds with no value, e.g. a function with an
empty body, which the repository's own tests submit), the posted
response has an undefined `result` and an undefined `error`: neither
field is present, so "exactly one of the two fields is present" fails. -/
theorem c7_counterexample :
    exactlyOnePresent (workerRespond (Except.ok none)) = false := rfl

/-- C7 amended: the two fields are never both present; a failure
response carries exactly the caught error object and an undefined
result; and a success response whose function produced a value carries
exactly that value and an undefined error.  Only a success whose value
is itself `undefined` leaves both fields absent. -/
theorem c7_amended (ex : WorkerExec) :
    (¬((workerRespond ex).result.isSome = true ∧
       (workerRespond ex).error.isSome = true)) ∧
    (∀ e : WireError, ex = Except.error e →
      workerRespond ex = ⟨none, some e⟩) ∧
    (∀ v : JSValue, ex = Except.ok (some v) →
      workerRespond ex = ⟨some v, none⟩) := by
  refine ⟨?_, ?_, ?_⟩
  · cases ex <;> simp [workerRespond]
  · intro e he; subst he; rfl
  · intro v hv; subst hv; rfl

/-- C7 witness: a concrete failure execution maps to a response with
the error object present and the result absent. -/
theorem c7_witness :
    workerRespond (Except.error ⟨some "boom", none, some "Error"⟩) =
      ⟨none, some ⟨some "boom", none, some "Error"⟩⟩ :=
  (c7_amended (Except.error ⟨some "boom", none, some "Error"⟩)).2.1
    ⟨some "boom", none, some "Error"⟩ rfl

/-! ## C9: average execution time -/

/-- C9: in every metrics snapshot, `avgExecutionTime` equals
`totalExecutionTime / completedJobs` when `completedJobs > 0` and is
zero when `completedJobs = 0` (all read off the snapshot itself). -/
theorem c9_avg_execution_time (m : MetricsTracker) (a q w now : Nat) :
    (0 < (m.getMetrics a q w now).completedJobs →
      (m.getMetrics a q w now).avgExecutionTime =
        (m.getMetrics a q w now).totalExecutionTime /
          (((m.getMetrics a q w now).completedJobs : Nat) : Rat)) ∧
    ((m.getMetrics a q w now).completedJobs = 0 →
      (m.getMetrics a q w now).avgExecutionTime = 0) := by
  refine ⟨fun h => ?_, fun h => ?_⟩
  · simp only [MetricsTracker.getMetrics] at h ⊢
    rw [if_pos h]
  · simp only [MetricsTracker.getMetrics] at h ⊢
    rw [if_neg (by omega)]

/-- C9 witness: a tracker with two completed jobs totalling 10 ms
snapshots to the exact quotient. -/
theorem c9_witness :
    (MetricsTracker.getMetrics ⟨2, 0, 10, 0, 0⟩ 3 4 5 6).avgExecutionTime =
      (MetricsTracker.getMetrics ⟨2, 0, 10, 0, 0⟩ 3 4 5 6).totalExecutionTime /
        (((MetricsTracker.getMetrics ⟨2, 0, 10, 0, 0⟩ 3 4 5 6).completedJobs : Nat) : Rat) :=
  (c9_avg_execution_time ⟨2, 0, 10, 0, 0⟩ 3 4 5 6).1 (by decide)

/-! ## C10: late message with no bound job -/

/-- C10: a worker message received while no job is bound to that worker
in the worker-to-job map is a complete no-op: the state is returned
unchanged (no binding, queue, metric or worker change) and no event —
in particular no sink settlement — is emitted. -/
theorem c10_unbound_message_noop (s : PoolState) (wid : Nat)
    (msg : WorkerResponse) (now : Nat)
    (h : mapGet s.workerJobMap wid = none) :
    PoolState.onMessage s wid msg now = (s, []) := by
  unfold PoolState.onMessage
  rw [h]

/-- The pool for the C10 witness. -/
def c10Pool : PoolState :=
  PoolState.mkPool ⟨some 1, some 1, some 1, none, none, none, none⟩ 1 0

/-- C10 witness: on a freshly constructed one-worker pool (empty map), a
message attributed to an unknown worker id changes nothing. -/
theorem c10_witness :
    PoolState.onMessage c10Pool 5 ⟨none, none⟩ 9 = (c10Pool, []) :=
  c10_unbound_message_noop c10Pool 5 ⟨none, none⟩ 9 rfl

/-! ## Event bookkeeping lemmas -/

@[simp] lemma sigsOf_nil : sigsOf [] = [] := rfl

@[simp] lemma sigsOf_append (a b : List Ev) :
    sigsOf (a ++ b) = sigsOf a ++ sigsOf b := by
  simp [sigsOf]

@[simp] lemma sigsOf_signal_cons (j : Nat) (sg : Sig) (l : List Ev) :
    sigsOf (Ev.signal j sg :: l) = (j, sg) :: sigsOf l := rfl

@[simp] lemma sigsOf_post_cons (w : Nat) (l : List Ev) :
    sigsOf (Ev.post w :: l) = sigsOf l := rfl

@[simp] lemma sigsOf_terminate_cons (w : Nat) (l : List Ev) :
    sigsOf (Ev.terminateW w :: l) = sigsOf l := rfl

@[simp] lemma sigsOf_arm_cons (t : Nat) (l : List Ev) :
    sigsOf (Ev.armTimer t :: l) = sigsOf l := rfl

@[simp] lemma sigsOf_clear_cons (t : Nat) (l : List Ev) :
    sigsOf (Ev.clearTimer t :: l) = sigsOf l := rfl

namespace PoolState

/-! ## Frame lemmas for the scheduler transitions -/

lemma runJob_queue (s : PoolState) (wid : Nat) (job : Job) (now : Nat) :
    (s.runJob wid job now).1.queue = s.queue := by
  cases htm : job.timeout with
  | none => simp [runJob, touchHeartbeat, htm]
  | some t =>
    by_cases ht : t = 0 <;> simp [runJob, touchHeartbeat, htm, ht]

lemma runJob_length (s : PoolState) (wid : Nat) (job : Job) (now : Nat) :
    (s.runJob wid job now).1.workers.length = s.workers.length := by
  cases htm : job.timeout with
  | none => simp [runJob, touchHeartbeat, htm]
  | some t =>
    by_cases ht : t = 0 <;> simp [runJob, touchHeartbeat, htm, ht]

lemma runJob_config (s : PoolState) (wid : Nat) (job : Job) (now : Nat) :
    (s.runJob wid job now).1.config = s.config := by
  cases htm : job.timeout with
  | none => simp [runJob, touchHeartbeat, htm]
  | some t =>
    by_cases ht : t = 0 <;> simp [runJob, touchHeartbeat, htm, ht]

lemma runJob_metrics (s : PoolState) (wid : Nat) (job : Job) (now : Nat) :
    (s.runJob wid job now).1.metrics = s.metrics := by
  cases htm : job.timeout with
  | none => simp [runJob, touchHeartbeat, htm]
  | some t =>
    by_cases ht : t = 0 <;> simp [runJob, touchHeartbeat, htm, ht]

lemma runJob_closing (s : PoolState) (wid : Nat) (job : Job) (now : Nat) :
    (s.runJob wid job now).1.closing = s.closing := by
  cases htm : job.timeout with
  | none => simp [runJob, touchHeartbeat, htm]
  | some t =>
    by_cases ht : t = 0 <;> simp [runJob, touchHeartbeat, htm, ht]

lemma runJob_sigs (s : PoolState) (wid : Nat) (job : Job) (now : Nat) :
    sigsOf (s.runJob wid job now).2 = [] := by
  cases htm : job.timeout with
  | none => simp [runJob, touchHeartbeat, htm]
  | some t =>
    by_cases ht : t = 0 <;> simp [runJob, touchHeartbeat, htm, ht]

lemma processNextJob_length (s : PoolState) (now : Nat) :
    (s.processNextJob now).1.workers.length = s.workers.length := by
  unfold processNextJob
  split
  · rfl
  · cases hfa : s.findAvailableWorker with
    | none => rfl
    | some ws =>
      cases hdq : s.queue.dequeue with
      | none => rfl
      | some p => exact runJob_length _ _ _ _

lemma processNextJob_config (s : PoolState) (now : Nat) :
    (s.processNextJob now).1.config = s.config := by
  unfold processNextJob
  split
  · rfl
  · cases hfa : s.findAvailableWorker with
    | none => rfl
    | some ws =>
      cases hdq : s.queue.dequeue with
      | none => rfl
      | some p => exact runJob_config _ _ _ _

lemma processNextJob_metrics (s : PoolState) (now : Nat) :
    (s.processNextJob now).1.metrics = s.metrics := by
  unfold processNextJob
  split
  · rfl
  · cases hfa : s.findAvailableWorker with
    | none => rfl
    | some ws =>
      cases hdq : s.queue.dequeue with
      | none => rfl
      | some p => exact runJob_metrics _ _ _ _

lemma processNextJob_closing (s : PoolState) (now : Nat) :
    (s.processNextJob now).1.closing = s.closing := by
  unfold processNextJob
  split
  · rfl
  · cases hfa : s.findAvailableWorker with
    | none => rfl
    | some ws =>
      cases hdq : s.queue.dequeue with
      | none => rfl
      | some p => exact runJob_closing _ _ _ _

lemma processNextJob_sigs (s : PoolState) (now : Nat) :
    sigsOf (s.processNextJob now).2 = [] := by
  unfold processNextJob
  split
  · rfl
  · cases hfa : s.findAvailableWorker with
    | none => rfl
    | some ws =>
      cases hdq : s.queue.dequeue with
      | none => rfl
      | some p => exact runJob_sigs _ _ _ _

lemma restartWorker_sigs (s : PoolState) (index now : Nat) :
    sigsOf (s.restartWorker index now).2 = [] := by
  cases hg : s.workers[index]? with
  | none => simp [restartWorker, hg]
  | some ws =>
    cases hjo : mapGet s.workerJobMap ws.wid with
    | none => simp [restartWorker, hg, hjo, createWorker, processNextJob_sigs]
    | some job =>
      cases htid : job.timeoutId <;>
        simp [restartWorker, hg, hjo, htid, createWorker, processNextJob_sigs]

lemma restartWorker_config (s : PoolState) (index now : Nat) :
    (s.restartWorker index now).1.config = s.config := by
  cases hg : s.workers[index]? with
  | none => simp [restartWorker, hg]
  | some ws =>
    cases hjo : mapGet s.workerJobMap ws.wid with
    | none => simp [restartWorker, hg, hjo, createWorker, processNextJob_config]
    | some job =>
      cases htid : job.timeoutId <;>
        simp [restartWorker, hg, hjo, htid, createWorker, processNextJob_config]

lemma restartWorker_closing (s : PoolState) (index now : Nat) :
    (s.restartWorker index now).1.closing = s.closing := by
  cases hg : s.workers[index]? with
  | none => simp [restartWorker, hg]
  | some ws =>
    cases hjo : mapGet s.workerJobMap ws.wid with
    | none => simp [restartWorker, hg, hjo, createWorker, processNextJob_closing]
    | some job =>
      cases htid : job.timeoutId <;>
        simp [restartWorker, hg, hjo, htid, createWorker, processNextJob_closing]

lemma createWorker_length (s : PoolState) (now : Nat) :
    (s.createWorker now).1.workers.length = s.workers.length + 1 := by
  simp [createWorker]

lemma createWorker_config (s : PoolState) (now : Nat) :
    (s.createWorker now).1.config = s.config := rfl

lemma scaleLoop_length (n : Nat) :
    ∀ (s : PoolState) (now : Nat),
      (scaleLoop s n now).1.workers.length = s.workers.length + n := by
  induction n with
  | zero => intro s now; rfl
  | succ k ih =>
    intro s now
    show (scaleLoop ((s.createWorker now).1.processNextJob now).1 k now).1.workers.length
        = s.workers.length + (k + 1)
    rw [ih, processNextJob_length, createWorker_length]
    omega

lemma scaleLoop_config (n : Nat) :
    ∀ (s : PoolState) (now : Nat),
      (scaleLoop s n now).1.config = s.config := by
  induction n with
  | zero => intro s now; rfl
  | succ k ih =>
    intro s now
    show (scaleLoop ((s.createWorker now).1.processNextJob now).1 k now).1.config
        = s.config
    rw [ih, processNextJob_config, createWorker_config]

lemma scaleUp_length (s : PoolState) (now : Nat) :
    (s.scaleUp now).1.workers.length =
      s.workers.length +
        (min (s.workers.length + 1) s.config.maxPoolSize - s.workers.length) := by
  unfold scaleUp
  rw [scaleLoop_length]

lemma scaleUp_config (s : PoolState) (now : Nat) :
    (s.scaleUp now).1.config = s.config := by
  unfold scaleUp
  rw [scaleLoop_config]

lemma initializeWorkers_length (n : Nat) :
    ∀ (s : PoolState) (now : Nat),
      (initializeWorkers s n now).workers.length = s.workers.length + n := by
  induction n with
  | zero => intro s now; rfl
  | succ k ih =>
    intro s now
    show (initializeWorkers (s.createWorker now).1 k now).workers.length
        = s.workers.length + (k + 1)
    rw [ih, createWorker_length]
    omega

lemma initializeWorkers_config (n : Nat) :
    ∀ (s : PoolState) (now : Nat),
      (initializeWorkers s n now).config = s.config := by
  induction n with
  | zero => intro s now; rfl
  | succ k ih =>
    intro s now
    show (initializeWorkers (s.createWorker now).1 k now).config = s.config
    rw [ih, createWorker_config]

lemma mkPool_length (pc : PartialConfig) (cpu now : Nat) :
    (mkPool pc cpu now).workers.length = (resolveConfig pc cpu).poolSize := by
  unfold mkPool
  rw [initializeWorkers_length]
  simp

lemma mkPool_config (pc : PartialConfig) (cpu now : Nat) :
    (mkPool pc cpu now).config = resolveConfig pc cpu := by
  unfold mkPool
  rw [initializeWorkers_config]

end PoolState

/-! ## C2: restart does not preserve the worker count -/

/-- A one-worker pool (poolSize = minPoolSize = maxPoolSize = 1). -/
def c2Pool : PoolState :=
  PoolState.mkPool ⟨some 1, some 1, some 1, none, none, none, none⟩ 1 0

/-- C2 failing input, evaluated: before the crash the pool has exactly
one worker; after the crash recovery (`onError`, which runs
`restartWorker` at the crashed worker's index) the workers vector has
length two — and both entries are the same replacement worker, because
`createWorker` pushes the new `WorkerState` onto the vector and
`restartWorker` additionally assigns it at the old index.  The claim
that `|workers|` is preserved is false on the code. -/
theorem c2_restart_grows_pool :
    c2Pool.workers.length = 1 ∧
    (PoolState.onError c2Pool 0 5).1.workers.length = 2 ∧
    (PoolState.onError c2Pool 0 5).1.workers =
      [⟨1, 0, 5, true⟩, ⟨1, 0, 5, true⟩] := by
  refine ⟨rfl, rfl, rfl⟩

/-! ## C3: size is not kept inside the configured interval -/

/-- A pool configured with `poolSize = 1` below `minPoolSize = 2`. -/
def c3PoolA : PoolState :=
  PoolState.mkPool ⟨some 1, some 2, some 3, none, none, none, none⟩ 4 0

/-- A pool at `poolSize = maxPoolSize = 1`. -/
def c3PoolB : PoolState :=
  PoolState.mkPool ⟨some 1, some 1, some 1, none, none, none, none⟩ 1 0

/-- C3 counterexample: the constructor performs no clamping, so with
`poolSize = 1, minPoolSize = 2` the pool starts (while not closing) with
`size = 1 < minPoolSize`; and a worker restart grows the vector, so with
`maxPoolSize = 1` a single restart leaves `size = 2 > maxPoolSize`. -/
theorem c3_counterexample :
    (c3PoolA.closing = false ∧ c3PoolA.workers.length = 1 ∧
      c3PoolA.config.minPoolSize = 2) ∧
    ((PoolState.restartWorker c3PoolB 0 5).1.closing = false ∧
      (PoolState.restartWorker c3PoolB 0 5).1.workers.length = 2 ∧
      (PoolState.restartWorker c3PoolB 0 5).1.config.maxPoolSize = 1) := by
  exact ⟨⟨rfl, rfl, rfl⟩, ⟨rfl, rfl, rfl⟩⟩

/-- C3 amended: provided the caller's configuration itself satisfies
`minPoolSize ≤ poolSize ≤ maxPoolSize` (the constructor performs no
clamping), the pool size lies in `[minPoolSize, maxPoolSize]`
immediately after construction, and every submission/dispatch step
(including its autoscale scale-up branch, which only grows the pool
while strictly below `maxPoolSize`) preserves this; worker restarts are
excluded, since each restart grows the vector by one and can push the
size above `maxPoolSize`. -/
theorem c3_amended :
    (∀ (pc : PartialConfig) (cpu now : Nat),
      (resolveConfig pc cpu).minPoolSize ≤ (resolveConfig pc cpu).poolSize →
      (resolveConfig pc cpu).poolSize ≤ (resolveConfig pc cpu).maxPoolSize →
      (PoolState.mkPool pc cpu now).config.minPoolSize ≤
          (PoolState.mkPool pc cpu now).workers.length ∧
        (PoolState.mkPool pc cpu now).workers.length ≤
          (PoolState.mkPool pc cpu now).config.maxPoolSize) ∧
    (∀ (s : PoolState) (job : Job) (now : Nat),
      s.closing = false →
      s.config.minPoolSize ≤ s.workers.length →
      s.workers.length ≤ s.config.maxPoolSize →
      (PoolState.enqueueJob s job now).1.config.minPoolSize ≤
          (PoolState.enqueueJob s job now).1.workers.length ∧
        (PoolState.enqueueJob s job now).1.workers.length ≤
          (PoolState.enqueueJob s job now).1.config.maxPoolSize) := by
  constructor
  · intro pc cpu now h1 h2
    rw [PoolState.mkPool_length, PoolState.mkPool_config]
    exact ⟨h1, h2⟩
  · intro s job now hcl h1 h2
    cases hfa : s.findAvailableWorker with
    | some ws =>
      have e1 : PoolState.enqueueJob s job now = s.runJob ws.wid job now := by
        simp [PoolState.enqueueJob, hfa]
      rw [e1, PoolState.runJob_length, PoolState.runJob_config]
      exact ⟨h1, h2⟩
    | none =>
      simp only [PoolState.enqueueJob, hfa]
      split
      · rename_i hcond
        simp only [Bool.and_eq_true, decide_eq_true_eq] at hcond
        obtain ⟨-, hlt0⟩ := hcond
        have hlt : s.workers.length < s.config.maxPoolSize := hlt0
        rw [PoolState.scaleUp_length, PoolState.scaleUp_config]
        constructor
        · show s.config.minPoolSize ≤ s.workers.length +
            (min (s.workers.length + 1) s.config.maxPoolSize - s.workers.length)
          omega
        · show s.workers.length +
            (min (s.workers.length + 1) s.config.maxPoolSize - s.workers.length) ≤
              s.config.maxPoolSize
          omega
      · exact ⟨h1, h2⟩

/-- C3 witness: a configuration with `poolSize = 2` inside the interval
`[1, 3]` constructs a pool whose size lies in the interval. -/
theorem c3_witness :
    (PoolState.mkPool ⟨some 2, some 1, some 3, none, none, none, none⟩ 1 0).config.minPoolSize ≤
      (PoolState.mkPool ⟨some 2, some 1, some 3, none, none, none, none⟩ 1 0).workers.length ∧
    (PoolState.mkPool ⟨some 2, some 1, some 3, none, none, none, none⟩ 1 0).workers.length ≤
      (PoolState.mkPool ⟨some 2, some 1, some 3, none, none, none, none⟩ 1 0).config.maxPoolSize :=
  c3_amended.1 ⟨some 2, some 1, some 3, none, none, none, none⟩ 1 0
    (by decide) (by decide)

/-! ## Settlement lemmas for the completion paths -/

namespace PoolState

lemma onMessage_sigs_bound (s : PoolState) (wid : Nat) (job : Job)
    (msg : WorkerResponse) (now : Nat)
    (h : mapGet s.workerJobMap wid = some job) :
    sigsOf (s.onMessage wid msg now).2 =
      [(job.jid, match msg.error with
                 | some _ => Sig.rejectedSig ErrKind.userErr
                 | none => Sig.resolvedSig)] := by
  unfold onMessage
  rw [h]
  cases he : msg.error <;> cases htid : job.timeoutId <;>
    simp [he, htid, processNextJob_sigs]

lemma handleJobTimeout_sigs (s : PoolState) (wid : Nat) (job : Job) (now : Nat) :
    sigsOf (s.handleJobTimeout wid job now).2 =
      [(job.jid, Sig.rejectedSig ErrKind.timeoutErr)] := by
  unfold handleJobTimeout
  dsimp only
  split <;> simp [restartWorker_sigs]

lemma cancelJob_sigs (s : PoolState) (job : Job) :
    sigsOf (s.cancelJob job).2 = [(job.jid, Sig.rejectedSig ErrKind.abortErr)] := by
  cases htid : job.timeoutId <;> simp [cancelJob, htid]

lemma cancelJob_state (s : PoolState) (job : Job) :
    (s.cancelJob job).1 = { s with metrics := s.metrics.recordJobFailure } := rfl

lemma onError_sigs_bound (s : PoolState) (wid now : Nat) (job : Job)
    (h : mapGet s.workerJobMap wid = some job) :
    sigsOf (s.onError wid now).2 = [(job.jid, Sig.rejectedSig ErrKind.crashErr)] := by
  unfold onError
  simp only [h]
  cases htid : job.timeoutId <;> split <;> simp [htid, restartWorker_sigs]

lemma onError_sigs_unbound (s : PoolState) (wid now : Nat)
    (h : mapGet s.workerJobMap wid = none) :
    sigsOf (s.onError wid now).2 = [] := by
  unfold onError
  simp only [h]
  split <;> simp [restartWorker_sigs]

end PoolState

/-- Deleting a worker's binding removes it: looking the key up after
`mapDelete` yields nothing. -/
lemma mapGet_delete_self (m : List (Nat × Job)) (w : Nat) :
    mapGet (mapDelete m w) w = none := by
  unfold mapGet mapDelete
  cases hf : List.find? (fun e => e.1 == w) (List.filter (fun e => !(e.1 == w)) m) with
  | none => rfl
  | some e =>
    exfalso
    have h1 := List.find?_some hf
    have h2 := List.of_mem_filter (List.mem_of_find?_eq_some hf)
    simp at h1 h2
    exact h2 h1

/-! ## C1: single completion per sink -/

/-- A strict one-worker pool for the C1 counterexample. -/
def c1Pool : PoolState :=
  PoolState.mkPool ⟨some 1, some 1, some 1, some false, none, none, some true⟩ 1 0

/-- The default used to read the bound job out of the map in the
counterexample trace (never actually taken). -/
def c1DefJob : Job := ⟨99, "", [], Priority.normal, none, false, none, none⟩

/-- Step 1 of the trace: submit a benign function with an abort signal;
the job is dispatched to the single idle worker. -/
def c1Run1 : PoolState × ThreadOutcome × List Ev :=
  threadStep c1Pool ⟨none, some ⟨false⟩, none⟩ ⟨true, "(a)=>a"⟩ [] 0

/-- Step 2: the abort signal fires while the job is bound; the
registered listener runs `cancelJob` on the job object (which `runJob`
has mutated, so it is read back out of the worker-to-job map). -/
def c1Run2 : PoolState × List Ev :=
  PoolState.cancelJob c1Run1.1 ((mapGet c1Run1.1.workerJobMap 0).getD c1DefJob)

/-- Step 3: the never-terminated worker finishes the computation and
posts its response, which the scheduler handles with `onMessage`. -/
def c1Run3 : PoolState × List Ev :=
  PoolState.onMessage c1Run2.1 0 ⟨none, none⟩ 5

/-- C1 counterexample: in the concrete execution submit → abort →
worker-response, the accepted job's sink (id 0) is signalled twice:
first rejected by the cancellation path, then resolved by the
worker-response path — `cancelJob` does not remove the worker-to-job
binding, so `onMessage` still finds the job.  The claim that no
execution signals the same sink through both paths is false. -/
theorem c1_counterexample :
    c1Run1.2.1 = ThreadOutcome.accepted 0 ∧
    sigsOf (c1Run1.2.2 ++ c1Run2.2 ++ c1Run3.2) =
      [(0, Sig.rejectedSig ErrKind.abortErr), (0, Sig.resolvedSig)] :=
  ⟨rfl, rfl⟩

/-- C1 amended: each completion path, per invocation, signals exactly
one sink — the worker-response path signals exactly the bound job's
sink (resolving, or rejecting with the reconstructed user error), and
the timeout, cancellation and crash paths signal exactly their target
job's sink once (a crash with no bound job signals nothing).  But the
cancellation path leaves the worker-to-job binding in place, so an
execution that cancels a bound job and then receives that worker's
response signals the same sink twice; only the promise's
first-settlement-wins semantics keeps the caller-visible future
single-valued. -/
theorem c1_amended :
    (∀ (s : PoolState) (wid : Nat) (job : Job) (msg : WorkerResponse) (now : Nat),
      mapGet s.workerJobMap wid = some job →
      sigsOf (PoolState.onMessage s wid msg now).2 =
        [(job.jid, match msg.error with
                   | some _ => Sig.rejectedSig ErrKind.userErr
                   | none => Sig.resolvedSig)]) ∧
    (∀ (s : PoolState) (wid : Nat) (job : Job) (now : Nat),
      sigsOf (PoolState.handleJobTimeout s wid job now).2 =
        [(job.jid, Sig.rejectedSig ErrKind.timeoutErr)]) ∧
    (∀ (s : PoolState) (job : Job),
      sigsOf (PoolState.cancelJob s job).2 =
        [(job.jid, Sig.rejectedSig ErrKind.abortErr)] ∧
      (PoolState.cancelJob s job).1.workerJobMap = s.workerJobMap) ∧
    (∀ (s : PoolState) (wid now : Nat) (job : Job),
      mapGet s.workerJobMap wid = some job →
      sigsOf (PoolState.onError s wid now).2 =
        [(job.jid, Sig.rejectedSig ErrKind.crashErr)]) ∧
    (∀ (s : PoolState) (wid now : Nat),
      mapGet s.workerJobMap wid = none →
      sigsOf (PoolState.onError s wid now).2 = []) := by
  refine ⟨?_, ?_, ?_, ?_, ?_⟩
  · intro s wid job msg now h
    exact PoolState.onMessage_sigs_bound s wid job msg now h
  · intro s wid job now
    exact PoolState.handleJobTimeout_sigs s wid job now
  · intro s job
    exact ⟨PoolState.cancelJob_sigs s job, rfl⟩
  · intro s wid now job h
    exact PoolState.onError_sigs_bound s wid now job h
  · intro s wid now h
    exact PoolState.onError_sigs_unbound s wid now h

/-- The bound job for the C1 witness state. -/
def c1WJob : Job := ⟨4, "()=>1", [], Priority.normal, none, false, some 0, none⟩

/-- A pool whose single worker is bound to `c1WJob`. -/
def c1WState : PoolState :=
  { workers := [⟨0, 0, 0, true⟩]
    queue := PriorityQueue.empty
    workerJobMap := [(0, c1WJob)]
    closing := false
    closeResolvers := 0
    metrics := MetricsTracker.init 0
    config := ⟨1, 1, 1, false, 10, 30000, true⟩
    healthCheckActive := true
    nextWid := 1
    nextTid := 0
    nextJid := 5 }

/-- C1 witness: an error-free response for the bound worker settles
exactly the bound job's sink, by resolution. -/
theorem c1_witness :
    sigsOf (PoolState.onMessage c1WState 0 ⟨none, none⟩ 3).2 =
      [(4, Sig.resolvedSig)] :=
  c1_amended.1 c1WState 0 c1WJob ⟨none, none⟩ 3 rfl

/-! ## C5: cancellation of a bound job -/

/-- The bound job for the C5 counterexample (timer token 3 armed). -/
def c5Job : Job := ⟨5, "()=>1", [], Priority.normal, some 50, true, some 0, some 3⟩

/-- A pool whose single worker (id 0) is bound to `c5Job`. -/
def c5State : PoolState :=
  { workers := [⟨0, 0, 0, true⟩]
    queue := PriorityQueue.empty
    workerJobMap := [(0, c5Job)]
    closing := false
    closeResolvers := 0
    metrics := MetricsTracker.init 0
    config := ⟨1, 1, 1, false, 10, 30000, true⟩
    healthCheckActive := true
    nextWid := 1
    nextTid := 4
    nextJid := 6 }

/-- C5 counterexample: cancelling the bound job clears its timer,
rejects its sink and counts a failure — but, contrary to the claim, the
worker-to-job binding survives untouched, the workers vector is
unchanged (no termination, no replacement), and the event list contains
no `terminate`. -/
theorem c5_counterexample :
    (PoolState.cancelJob c5State c5Job).1.workerJobMap = [(0, c5Job)] ∧
    (PoolState.cancelJob c5State c5Job).1.workers = [⟨0, 0, 0, true⟩] ∧
    (PoolState.cancelJob c5State c5Job).2 =
      [Ev.clearTimer 3, Ev.signal 5 (Sig.rejectedSig ErrKind.abortErr)] :=
  ⟨rfl, rfl, rfl⟩

/-- C5 amended: the cancellation handler clears the job's armed timer,
rejects the job's future with the abort (cancellation) error and
records a failure metric — and changes nothing else: it neither unbinds
the worker from the job map nor terminates/replaces any worker.  The
timeout path, in contrast, does unbind (`mapDelete`) and does terminate
and replace the bound worker. -/
theorem c5_amended :
    (∀ (s : PoolState) (job : Job),
      (PoolState.cancelJob s job).1 =
        { s with metrics := s.metrics.recordJobFailure } ∧
      sigsOf (PoolState.cancelJob s job).2 =
        [(job.jid, Sig.rejectedSig ErrKind.abortErr)] ∧
      (∀ tid, job.timeoutId = some tid →
        Ev.clearTimer tid ∈ (PoolState.cancelJob s job).2) ∧
      (∀ w, Ev.terminateW w ∉ (PoolState.cancelJob s job).2)) ∧
    (∀ (s : PoolState) (wid now : Nat) (job : Job) (i : Nat) (ws : WorkerState),
      s.workers[i]? = some ws → ws.wid = wid →
      s.workers.findIdx? (fun w => w.wid == wid) = some i →
      Ev.terminateW wid ∈ (PoolState.handleJobTimeout s wid job now).2 ∧
      sigsOf (PoolState.handleJobTimeout s wid job now).2 =
        [(job.jid, Sig.rejectedSig ErrKind.timeoutErr)] ∧
      mapGet (mapDelete s.workerJobMap wid) wid = none) := by
  constructor
  · intro s job
    refine ⟨rfl, PoolState.cancelJob_sigs s job, ?_, ?_⟩
    · intro tid htid
      simp [PoolState.cancelJob, htid]
    · intro w
      cases htid : job.timeoutId <;> simp [PoolState.cancelJob, htid]
  · intro s wid now job i ws hw hww hfind
    refine ⟨?_, PoolState.handleJobTimeout_sigs s wid job now, mapGet_delete_self _ _⟩
    subst hww
    unfold PoolState.handleJobTimeout
    simp only [hfind]
    unfold PoolState.restartWorker
    simp only [hw]
    exact List.mem_cons_of_mem _ (List.mem_cons_self _ _)

/-- C5 witness: the concrete bound-job state from the counterexample
discharges the amended theorem's hypotheses (timer token 3 armed, the
worker at index 0 has id 0). -/
theorem c5_witness :
    Ev.clearTimer 3 ∈ (PoolState.cancelJob c5State c5Job).2 ∧
    Ev.terminateW 0 ∈ (PoolState.handleJobTimeout c5State 0 c5Job 9).2 :=
  ⟨(c5_amended.1 c5State c5Job).2.2.1 3 rfl,
   (c5_amended.2 c5State 0 9 c5Job 0 ⟨0, 0, 0, true⟩ rfl rfl rfl).1⟩

/-! ## C6: re-queue position on health-check eviction -/

lemma PriorityQueue.isEmpty_iff (q : PriorityQueue) :
    q.isEmpty = true ↔ q.allJobs = [] := by
  simp [PriorityQueue.isEmpty, ← PriorityQueue.allJobs_length,
    List.length_eq_zero]

/-- A key below every key of the map is absent from it. -/
lemma mapGet_none_of_lt (m : List (Nat × Job)) (k : Nat)
    (h : ∀ e ∈ m, e.1 < k) : mapGet m k = none := by
  unfold mapGet
  have hf : List.find? (fun e => e.1 == k) m = none := by
    rw [List.find?_eq_none]
    intro x hx
    simp only [beq_iff_eq]
    exact Nat.ne_of_lt (h x hx)
  rw [hf]
  rfl

/-- When the queue can be dequeued and a worker is available, the pump
dispatches exactly the dequeued front, leaving the rest as the new
queue. -/
lemma PoolState.processNextJob_queue_of_dequeue (s : PoolState) (now : Nat)
    (jf : Job) (q2 : PriorityQueue)
    (hfa : s.findAvailableWorker.isSome = true)
    (hdq : s.queue.dequeue = some (jf, q2)) :
    (s.processNextJob now).1.queue = q2 := by
  unfold processNextJob
  have hie : s.queue.isEmpty = false := by
    cases hie0 : s.queue.isEmpty
    · rfl
    · exfalso
      have hnil := (PriorityQueue.isEmpty_iff s.queue).1 hie0
      have := (PriorityQueue.dequeue_none_iff s.queue).2 hnil
      rw [this] at hdq
      exact Option.noConfusion hdq
  rw [hie]
  cases hfa0 : s.findAvailableWorker with
  | none => rw [hfa0] at hfa; exact absurd hfa (by simp)
  | some ws =>
    simp only [Bool.false_eq_true, if_false, hfa0, hdq]
    rw [PoolState.runJob_queue]

/-- The bound (stale) job for the C6 counterexample, NORMAL priority. -/
def c6JobA : Job := ⟨0, "a=>a", [], Priority.normal, none, false, some 0, none⟩

/-- The job already waiting in the NORMAL band. -/
def c6JobB : Job := ⟨1, "b=>b", [], Priority.normal, none, false, none, none⟩

/-- A one-worker pool whose worker (id 0, last heartbeat 0) is bound to
`c6JobA` while `c6JobB` waits in the same band. -/
def c6State : PoolState :=
  { workers := [⟨0, 0, 0, true⟩]
    queue := ⟨[], [c6JobB], []⟩
    workerJobMap := [(0, c6JobA)]
    closing := false
    closeResolvers := 0
    metrics := MetricsTracker.init 0
    config := ⟨1, 1, 1, false, 10, 30000, true⟩
    healthCheckActive := true
    nextWid := 1
    nextTid := 0
    nextJid := 2 }

/-- C6 counterexample: at `now = 70000` the health check evicts the
stale worker and re-queues its bound job `c6JobA` (jid 0) at the
**tail** of the NORMAL band; the pump then dequeues the previously
waiting `c6JobB` (jid 1) first and binds it to the replacement worker
(id 1), while the evicted job is still queued.  So the dequeue
following the eviction returns the job that was already waiting, not
the evicted one — the claimed front re-queue is false. -/
theorem c6_counterexample :
    (PoolState.checkWorkerHealth c6State 70000).1.queue.normal.map Job.jid
        = [0] ∧
      (mapGet (PoolState.checkWorkerHealth c6State 70000).1.workerJobMap 1).map
          Job.jid = some 1 :=
  ⟨rfl, rfl⟩

/-- C6 amended: `restartWorker` re-queues the interrupted bound job at
the **tail** of its priority band (via `PriorityQueue.enqueue`), and the
restart's pump then dequeues the overall front of that queue — the
evicted job comes out after every job already waiting in its band.  The
freshness hypothesis (every map key is below `nextWid`, true of every
reachable state) guarantees the replacement worker is unbound and hence
the pump fires. -/
theorem c6_amended (s : PoolState) (i now : Nat) (ws : WorkerState) (job : Job)
    (hw : s.workers[i]? = some ws)
    (hj : mapGet s.workerJobMap ws.wid = some job)
    (hfresh : ∀ e ∈ s.workerJobMap, e.1 < s.nextWid) :
    (s.queue.enqueue job).band job.priority
        = s.queue.band job.priority ++ [job] ∧
    ∃ jf q2, (s.queue.enqueue job).dequeue = some (jf, q2) ∧
      (PoolState.restartWorker s i now).1.queue = q2 ∧
      (s.queue.enqueue job).allJobs = jf :: q2.allJobs := by
  refine ⟨PriorityQueue.enqueue_band_eq _ _, ?_⟩
  have hne : (s.queue.enqueue job).allJobs ≠ [] := by
    intro hnil
    have hlen := PriorityQueue.allJobs_length (s.queue.enqueue job)
    rw [hnil, PriorityQueue.enqueue_qlength] at hlen
    simp at hlen
  obtain ⟨p, hdq⟩ : ∃ p, (s.queue.enqueue job).dequeue = some p := by
    cases hdq0 : (s.queue.enqueue job).dequeue with
    | none =>
      exact absurd ((PriorityQueue.dequeue_none_iff _).1 hdq0) hne
    | some p => exact ⟨p, rfl⟩
  obtain ⟨jf, q2⟩ := p
  refine ⟨jf, q2, hdq, ?_, PriorityQueue.dequeue_cons hdq⟩
  have hi : i < s.workers.length := by
    by_contra hcon
    rw [List.getElem?_eq_none (Nat.le_of_not_lt hcon)] at hw
    exact Option.noConfusion hw
  unfold PoolState.restartWorker
  simp only [hw, hj]
  apply PoolState.processNextJob_queue_of_dequeue _ now jf q2
  · rw [PoolState.findAvailableWorker, List.find?_isSome]
    simp only [PoolState.createWorker]
    refine ⟨(⟨s.nextWid, 0, now, true⟩ : WorkerState), ?_, ?_⟩
    · exact List.getElem?_mem (List.getElem?_set_self (by simp; omega))
    · have hnone : mapGet (mapDelete s.workerJobMap ws.wid) s.nextWid = none := by
        apply mapGet_none_of_lt
        intro e he
        exact hfresh e (List.mem_filter.1 he).1
      simp [hnone]
  · exact hdq

/-- The bound job for the C6 witness (NORMAL band). -/
def c6WJob : Job := ⟨3, "c=>c", [], Priority.normal, none, false, some 0, none⟩

/-- A one-worker pool bound to `c6WJob` with an empty queue. -/
def c6WState : PoolState :=
  { workers := [⟨0, 0, 0, true⟩]
    queue := PriorityQueue.empty
    workerJobMap := [(0, c6WJob)]
    closing := false
    closeResolvers := 0
    metrics := MetricsTracker.init 0
    config := ⟨1, 1, 1, false, 10, 30000, true⟩
    healthCheckActive := true
    nextWid := 1
    nextTid := 0
    nextJid := 4 }

/-- C6 witness: the amended theorem applied to the concrete bound-job
state. -/
theorem c6_witness :
    (c6WState.queue.enqueue c6WJob).band c6WJob.priority
        = c6WState.queue.band c6WJob.priority ++ [c6WJob] ∧
    ∃ jf q2, (c6WState.queue.enqueue c6WJob).dequeue = some (jf, q2) ∧
      (PoolState.restartWorker c6WState 0 9).1.queue = q2 ∧
      (c6WState.queue.enqueue c6WJob).allJobs = jf :: q2.allJobs :=
  c6_amended c6WState 0 9 ⟨0, 0, 0, true⟩ c6WJob rfl rfl
    (by intro e he; simp [c6WState] at he; subst he; decide)

/-! ## C8: strict-mode validation through the future -/

/-- C8: the submission path never lets an exception escape
synchronously (`threadStepE` is total in `Except.ok`: the validator's
throws are confined to the caught region and become a rejected future);
with strict mode on and the pool open, a function-policy failure or an
argument-shape failure is delivered as a `rejectedValidation` outcome of
the returned future; and with strict mode off both checks are skipped
entirely — a submission whose function fails the policy check *and*
whose arguments fail the shape check is still accepted. -/
theorem c8_strict_validation :
    (∀ (s : PoolState) (opts : ThreadOptions) (fn : JsFn)
        (args : List JSValue) (now : Nat),
      ∃ r, threadStepE s opts fn args now = Except.ok r) ∧
    (∀ (s : PoolState) (opts : ThreadOptions) (fn : JsFn)
        (args : List JSValue) (now : Nat) (e : ValError),
      s.closing = false → s.config.strictMode = true →
      validateFunctionE fn = some e →
      threadStepE s opts fn args now =
        Except.ok (s, ThreadOutcome.rejectedValidation e, [])) ∧
    (∀ (s : PoolState) (opts : ThreadOptions) (fn : JsFn)
        (args : List JSValue) (now : Nat) (e : ValError),
      s.closing = false → s.config.strictMode = true →
      validateFunctionE fn = none → validateArgumentsE args = some e →
      threadStepE s opts fn args now =
        Except.ok (s, ThreadOutcome.rejectedValidation e, [])) ∧
    (∀ (s : PoolState) (opts : ThreadOptions) (fn : JsFn)
        (args : List JSValue) (now : Nat) (e1 e2 : ValError),
      s.closing = false → s.config.strictMode = false →
      validateFunctionE fn = some e1 → validateArgumentsE args = some e2 →
      (opts.signal = none ∨ opts.signal = some ⟨false⟩) →
      (threadStep s opts fn args now).2.1 =
        ThreadOutcome.accepted s.nextJid) := by
  refine ⟨?_, ?_, ?_, ?_⟩
  · intro s opts fn args now
    unfold threadStepE
    by_cases hc : s.closing
    · simp [hc]
    · simp only [hc, Bool.false_eq_true, if_false]
      cases htv : tryValidate s.config.strictMode fn args with
      | error e => simp [htv]
      | ok u =>
        cases u
        cases hsg : opts.signal with
        | none => simp [htv, hsg]
        | some sg =>
          by_cases hab : sg.aborted <;> simp [htv, hsg, hab]
  · intro s opts fn args now e hc hs hv
    simp [threadStepE, tryValidate, hc, hs, hv]
  · intro s opts fn args now e hc hs hv ha
    simp [threadStepE, tryValidate, hc, hs, hv, ha]
  · intro s opts fn args now e1 e2 hc hs hv1 hv2 hsg
    have htv : tryValidate s.config.strictMode fn args = Except.ok () := by
      simp [tryValidate, hs]
    rcases hsg with h | h <;>
      simp [threadStep, threadStepE, hc, htv, h]

/-- A strict pool for the C8 witness. -/
def c8WPool : PoolState :=
  PoolState.mkPool ⟨some 1, some 1, some 2, none, none, none, some true⟩ 1 0

/-- The same pool with strict mode off. -/
def c8WPoolOff : PoolState :=
  PoolState.mkPool ⟨some 1, some 1, some 2, none, none, none, some false⟩ 1 0

/-- C8 witness: submitting a function whose text touches the filesystem
module is rejected through the future with a validation error in strict
mode; with strict mode off, the same dangerous function together with a
non-serialisable argument is accepted regardless. -/
theorem c8_witness :
    threadStepE c8WPool ⟨none, none, none⟩ ⟨true, "()=>fs.readFileSync(p)"⟩
        [] 0 =
      Except.ok (c8WPool, ThreadOutcome.rejectedValidation
        ValError.dangerousPattern, []) ∧
    (threadStep c8WPoolOff ⟨none, none, none⟩ ⟨true, "()=>fs.readFileSync(p)"⟩
        [JSValue.funcV] 0).2.1 = ThreadOutcome.accepted 0 :=
  ⟨c8_strict_validation.2.1 c8WPool ⟨none, none, none⟩
      ⟨true, "()=>fs.readFileSync(p)"⟩ [] 0 ValError.dangerousPattern
      rfl rfl (by rfl),
   c8_strict_validation.2.2.2 c8WPoolOff ⟨none, none, none⟩
      ⟨true, "()=>fs.readFileSync(p)"⟩ [JSValue.funcV] 0
      ValError.dangerousPattern (ValError.badArgument 0)
      rfl rfl (by rfl) (by rfl) (Or.inl rfl)⟩

end NodeSwarm
